import Mathlib

/-!
Verification of the supabase-backend checkout workflow: a shallow embedding of
the three edge functions (`merge-cart`, `create-order`, `verify-payment`) and of
the legacy create-order handler, together with theorems settling the spec claims.

Machine integers are modelled as `Nat` reduced modulo `2 ^ 32` where the source
relies on 32-bit wrapping (the SHA-256 core used by `crypto.subtle` in
`verify-payment/index.ts`); monetary values are `Rat`, since JavaScript numbers
hold the exact values used in the claims.
-/

namespace SupabaseBackend

/-! ## Bytes, hex encoding (verify-payment/index.ts lines 34-36) -/

/-- The byte sequence of a string, one code point per byte.  The source encodes
with `TextEncoder` (UTF-8); every string this development evaluates is ASCII,
where UTF-8 is the identity on code points. -/
def strBytes (s : String) : List Nat := s.data.map Char.toNat

/-- The lower-case hex digit for a value below 16, as produced by
JavaScript `b.toString(16)`. -/
def hexDigit (n : Nat) : Char := "0123456789abcdef".data.getD n '0'

/-- Two lower-case hex characters for one byte: the source's
`b.toString(16).padStart(2, "0")`. -/
def byteHex (b : Nat) : List Char := [hexDigit (b / 16), hexDigit (b % 16)]

/-- Hex encoding of a byte list, joined with no separator, as in the source's
`.map(...).join("")`. -/
def bytesToHex (bs : List Nat) : String := String.mk (bs.map byteHex).flatten

/-! ## SHA-256 (FIPS 180-4), the hash `crypto.subtle` computes for HMAC.
Words are `Nat` values kept below `2 ^ 32`. -/

/-- The 32-bit modulus. -/
def w32 : Nat := 2 ^ 32

/-- Addition modulo `2 ^ 32`. -/
def add32 (a b : Nat) : Nat := (a + b) % w32

/-- Bitwise complement on 32 bits. -/
def not32 (x : Nat) : Nat := Nat.xor x (w32 - 1)

/-- Right rotation of a 32-bit word by `n` places. -/
def rotr32 (x n : Nat) : Nat := Nat.lor (x >>> n) ((x <<< (32 - n)) % w32)

/-- SHA-256 choice function. -/
def ch32 (x y z : Nat) : Nat := Nat.xor (Nat.land x y) (Nat.land (not32 x) z)

/-- SHA-256 majority function. -/
def maj32 (x y z : Nat) : Nat :=
  Nat.xor (Nat.xor (Nat.land x y) (Nat.land x z)) (Nat.land y z)

/-- The big Sigma-0 function. -/
def bsig0 (x : Nat) : Nat := Nat.xor (Nat.xor (rotr32 x 2) (rotr32 x 13)) (rotr32 x 22)

/-- The big Sigma-1 function. -/
def bsig1 (x : Nat) : Nat := Nat.xor (Nat.xor (rotr32 x 6) (rotr32 x 11)) (rotr32 x 25)

/-- The small sigma-0 function. -/
def ssig0 (x : Nat) : Nat := Nat.xor (Nat.xor (rotr32 x 7) (rotr32 x 18)) (x >>> 3)

/-- The small sigma-1 function. -/
def ssig1 (x : Nat) : Nat := Nat.xor (Nat.xor (rotr32 x 17) (rotr32 x 19)) (x >>> 10)

/-- The eight SHA-256 initial hash values. -/
def sha256IV : List Nat :=
  [1779033703, 3144134277, 1013904242, 2773480762, 1359893119, 2600822924,
   528734635, 1541459225]

/-- The 64 SHA-256 round constants. -/
def sha256K : List Nat :=
  [1116352408, 1899447441, 3049323471, 3921009573, 961987163, 1508970993,
   2453635748, 2870763221, 3624381080, 310598401, 607225278, 1426881987,
   1925078388, 2162078206, 2614888103, 3248222580, 3835390401, 4022224774,
   264347078, 604807628, 770255983, 1249150122, 1555081692, 1996064986,
   2554220882, 2821834349, 2952996808, 3210313671, 3336571891, 3584528711,
   113926993, 338241895, 666307205, 773529912, 1294757372, 1396182291,
   1695183700, 1986661051, 2177026350, 2456956037, 2730485921, 2820302411,
   3259730800, 3345764771, 3516065817, 3600352804, 4094571909, 275423344,
   430227734, 506948616, 659060556, 883997877, 958139571, 1322822218,
   1537002063, 1747873779, 1955562222, 2024104815, 2227730452, 2361852424,
   2428436474, 2756734187, 3204031479, 3329325298]

/-- Big-endian 8-byte encoding of a length value (bits), FIPS 180-4 padding tail. -/
def be64 (n : Nat) : List Nat :=
  [(n >>> 56) % 256, (n >>> 48) % 256, (n >>> 40) % 256, (n >>> 32) % 256,
   (n >>> 24) % 256, (n >>> 16) % 256, (n >>> 8) % 256, n % 256]

/-- SHA-256 message padding: append `0x80`, zero bytes to 56 mod 64, then the
64-bit big-endian bit length. -/
def sha256Pad (msg : List Nat) : List Nat :=
  let len := msg.length
  let zeros := (64 + 56 - ((len + 1) % 64)) % 64
  msg ++ [0x80] ++ List.replicate zeros 0 ++ be64 (len * 8)

/-- The 16 big-endian 32-bit words of one 64-byte block. -/
def blockWords (block : List Nat) : List Nat :=
  (List.range 16).map fun t =>
    (block.getD (4 * t) 0) <<< 24 + (block.getD (4 * t + 1) 0) <<< 16 +
    (block.getD (4 * t + 2) 0) <<< 8 + block.getD (4 * t + 3) 0

/-- Extend the 16-word schedule by `n` further words. -/
def extendSchedule (ws : List Nat) : Nat → List Nat
  | 0 => ws
  | n + 1 =>
    let i := ws.length
    let next := add32 (add32 (ssig1 (ws.getD (i - 2) 0)) (ws.getD (i - 7) 0))
      (add32 (ssig0 (ws.getD (i - 15) 0)) (ws.getD (i - 16) 0))
    extendSchedule (ws ++ [next]) n

/-- One SHA-256 round on the eight-word working state. -/
def sha256Round (kt wt : Nat) (st : List Nat) : List Nat :=
  match st with
  | [a, b, c, d, e, f, g, h] =>
    let t1 := add32 (add32 (add32 h (bsig1 e)) (add32 (ch32 e f g) kt)) wt
    let t2 := add32 (bsig0 a) (maj32 a b c)
    [add32 t1 t2, a, b, c, add32 d t1, e, f, g]
  | other => other

/-- Compress one 64-byte block into the running eight-word state. -/
def sha256Compress (st : List Nat) (block : List Nat) : List Nat :=
  let ws := extendSchedule (blockWords block) 48
  let fin := (List.range 64).foldl
    (fun s t => sha256Round (sha256K.getD t 0) (ws.getD t 0) s) st
  List.zipWith add32 st fin

/-- SHA-256 of a byte list: pad, then compress block by block, then serialize
the final state big-endian. -/
def sha256 (msg : List Nat) : List Nat :=
  let padded := sha256Pad msg
  let st := (List.range (padded.length / 64)).foldl
    (fun s i => sha256Compress s ((padded.drop (64 * i)).take 64)) sha256IV
  (st.map fun word =>
    [(word >>> 24) % 256, (word >>> 16) % 256, (word >>> 8) % 256, word % 256]).flatten

/-! ## HMAC-SHA256 (FIPS 198-1), the `crypto.subtle.sign("HMAC", ...)` call. -/

/-- The key padded or hashed to the 64-byte block size. -/
def hmacKey0 (key : List Nat) : List Nat :=
  let k := if 64 < key.length then sha256 key else key
  k ++ List.replicate (64 - k.length) 0

/-- HMAC-SHA256 of `msg` under `key`. -/
def hmacSha256 (key msg : List Nat) : List Nat :=
  let k0 := hmacKey0 key
  sha256 ((k0.map fun b => Nat.xor b 0x5c) ++
    sha256 ((k0.map fun b => Nat.xor b 0x36) ++ msg))

/-- The lower-case hex HMAC-SHA256 digest of a string payload under a string
secret, exactly the `expected` value of `verifySignature` in
verify-payment/index.ts lines 18-36. -/
def hmacSha256Hex (secret payload : String) : String :=
  bytesToHex (hmacSha256 (strBytes secret) (strBytes payload))

/-- The signature check of verify-payment/index.ts lines 12-39: build the
payload `orderId ++ "|" ++ paymentId`, HMAC it under the secret, hex-encode,
and compare for exact string equality with the candidate signature. -/
def verifySignature (orderId paymentId signature secret : String) : Bool :=
  let payload := orderId ++ "|" ++ paymentId
  let expected := hmacSha256Hex secret payload
  expected == signature

/-! ## Data model: the rows the three edge functions read and write.
Statuses are the literal strings the source compares against. -/

/-- A row of the `carts` table. -/
structure CartRow where
  id : Nat
  user_id : String
  status : String
  deriving DecidableEq, Repr

/-- A row of the `cart_items` table. -/
structure CartItemRow where
  id : Nat
  cart_id : Nat
  product_id : String
  quantity : Int
  deriving DecidableEq, Repr

/-- A row of the `products` table, the fields the join in create-order selects. -/
structure ProductRow where
  id : String
  name : String
  price : Rat
  deriving DecidableEq, Repr

/-- A row of the `orders` table. -/
structure OrderRow where
  id : Nat
  user_id : String
  sub_total : Rat
  discount_total : Rat
  grand_total : Rat
  status : String
  payment_status : String
  payment_gateway_order_id : Option String
  deriving DecidableEq, Repr

/-- A row of the `order_items` snapshot table. -/
structure OrderItemRow where
  order_id : Nat
  product_id : String
  product_name : String
  price : Rat
  qty : Int
  item_total : Rat
  deriving DecidableEq, Repr

/-- A row of the `payments` table.  The `raw_payload` column is modelled by the
gateway order id stored in it (create-order stores the gateway response there;
the legacy handler stores nothing). -/
structure PaymentRow where
  id : Nat
  order_id : Nat
  razorpay_order_id : String
  razorpay_payment_id : Option String
  amount : Rat
  status : String
  raw_payload : Option String
  deriving DecidableEq, Repr

/-- The persistent store the handlers act on, with a fresh-id counter for
inserted rows. -/
structure Store where
  carts : List CartRow
  cart_items : List CartItemRow
  products : List ProductRow
  orders : List OrderRow
  order_items : List OrderItemRow
  payments : List PaymentRow
  nextId : Nat
  deriving DecidableEq, Repr

/-- The store with no rows. -/
def emptyStore : Store :=
  { carts := [], cart_items := [], products := [], orders := [],
    order_items := [], payments := [], nextId := 1 }

/-- Result of a supabase `.single()` or `.maybeSingle()` query as the handlers
consume it: `data` is non-null exactly when the filter matched one row (zero
matches yield null data, two or more yield an error with null data, and every
handler only tests the data). -/
def singleMatch {α : Type} (l : List α) : Option α :=
  match l with
  | [x] => some x
  | _ => none

/-- JavaScript truthiness of an optional string field: absent and `""` are
falsy. -/
def optStrTruthy : Option String → Bool
  | none => false
  | some s => !(s == "")

/-- JavaScript `Math.round`: half-up rounding (toward positive infinity on
ties). -/
def jsRound (q : Rat) : Int := (q + 1 / 2).floor

/-! ## Query and mutation helpers (the supabase-js calls, row-level). -/

/-- The rows of `carts` matching `.eq("user_id", u).eq("status", "ACTIVE")`. -/
def activeCartsFor (s : Store) (u : String) : List CartRow :=
  s.carts.filter fun c => c.user_id == u && c.status == "ACTIVE"

/-- The rows of `orders` matching `.eq("user_id", u).eq("status", "CREATED")`. -/
def createdOrdersFor (s : Store) (u : String) : List OrderRow :=
  s.orders.filter fun o => o.user_id == u && o.status == "CREATED"

/-- The rows of `cart_items` matching `.eq("cart_id", cid)`. -/
def cartItemsFor (s : Store) (cid : Nat) : List CartItemRow :=
  s.cart_items.filter fun r => r.cart_id == cid

/-- The product row joined by `products ( id, name, price )`. -/
def productFor (s : Store) (pid : String) : Option ProductRow :=
  (s.products.filter fun p => p.id == pid).head?

/-- A cart item joined with its product, as the create-order select returns it. -/
structure JoinedItem where
  quantity : Int
  product : ProductRow
  deriving DecidableEq, Repr

/-- The joined `cart_items` select of create-order step 5; rows whose product
is missing from the catalog are dropped (referential integrity assumed). -/
def joinedCartItems (s : Store) (cid : Nat) : List JoinedItem :=
  (cartItemsFor s cid).filterMap fun r =>
    (productFor s r.product_id).map fun p => { quantity := r.quantity, product := p }

/-- The running-sum subtotal loop of create-order step 6. -/
def cartSubTotal (items : List JoinedItem) : Rat :=
  items.foldl (fun t i => t + (i.quantity : Rat) * i.product.price) 0

/-- Insert a cart row with a fresh id. -/
def insertCart (s : Store) (u : String) (st : String) : CartRow × Store :=
  let c : CartRow := { id := s.nextId, user_id := u, status := st }
  (c, { s with carts := s.carts ++ [c], nextId := s.nextId + 1 })

/-- Insert a cart-item row with a fresh id. -/
def insertCartItem (s : Store) (cid : Nat) (pid : String) (q : Int) :
    CartItemRow × Store :=
  let r : CartItemRow := { id := s.nextId, cart_id := cid, product_id := pid, quantity := q }
  (r, { s with cart_items := s.cart_items ++ [r], nextId := s.nextId + 1 })

/-- Insert an order row with a fresh id, as both create-order handlers do:
status and payment_status `CREATED`, zero discount, grand total equal to the
subtotal, no gateway order id yet. -/
def insertOrder (s : Store) (u : String) (subTotal : Rat) : OrderRow × Store :=
  let o : OrderRow :=
    { id := s.nextId, user_id := u, sub_total := subTotal, discount_total := 0,
      grand_total := subTotal, status := "CREATED", payment_status := "CREATED",
      payment_gateway_order_id := none }
  (o, { s with orders := s.orders ++ [o], nextId := s.nextId + 1 })

/-- Insert the order-item snapshot rows. -/
def insertOrderItems (s : Store) (rows : List OrderItemRow) : Store :=
  { s with order_items := s.order_items ++ rows }

/-- Insert a payment row with a fresh id. -/
def insertPayment (s : Store) (oid : Nat) (gid : String) (amount : Rat)
    (st : String) (raw : Option String) : PaymentRow × Store :=
  let p : PaymentRow :=
    { id := s.nextId, order_id := oid, razorpay_order_id := gid,
      razorpay_payment_id := none, amount := amount, status := st, raw_payload := raw }
  (p, { s with payments := s.payments ++ [p], nextId := s.nextId + 1 })

/-- Update a cart row status by cart id. -/
def updateCartStatus (s : Store) (cid : Nat) (st : String) : Store :=
  { s with carts := s.carts.map fun c => if c.id == cid then { c with status := st } else c }

/-- Update a cart-item row quantity by row id. -/
def updateCartItemQty (s : Store) (iid : Nat) (q : Int) : Store :=
  { s with cart_items := s.cart_items.map fun r =>
      if r.id == iid then { r with quantity := q } else r }

/-- The order update of create-order step 12: set the gateway order id. -/
def updateOrderGatewayId (s : Store) (oid : Nat) (g : String) : Store :=
  { s with orders := s.orders.map fun o =>
      if o.id == oid then { o with payment_gateway_order_id := some g } else o }

/-- The order update of verify-payment step 6: payment_status PAID, status
CONFIRMED. -/
def updateOrderPaid (s : Store) (oid : Nat) : Store :=
  { s with orders := s.orders.map fun o =>
      if o.id == oid then { o with payment_status := "PAID", status := "CONFIRMED" } else o }

/-- The payment update of verify-payment step 5: record the gateway payment id
and set status PAID. -/
def updatePaymentPaid (s : Store) (pid : Nat) (gatewayPaymentId : String) : Store :=
  { s with payments := s.payments.map fun p =>
      if p.id == pid then
        { p with razorpay_payment_id := some gatewayPaymentId, status := "PAID" } else p }

/-! ## merge-cart (merge-cart/index.ts) -/

/-- One entry of the incoming `items` body.  A missing `product_id` is
modelled by `""` and a missing `quantity` by `0`, both falsy in the source's
`!item.product_id || !item.quantity` test. -/
structure MergeItem where
  product_id : String
  quantity : Int
  deriving DecidableEq, Repr

/-- Responses of the merge-cart handler. -/
inductive MergeResp where
  | ok (cart_id : Nat) (items : List (String × Int))
  | err (msg : String) (status : Nat)
  deriving DecidableEq, Repr

/-- The query phase of the get-or-create-active-cart block (merge-cart step 3,
lines 59-64): a `.single()` select on the user's ACTIVE carts. -/
def getOrCreateCartQuery (s : Store) (u : String) : Option CartRow :=
  singleMatch (activeCartsFor s u)

/-- The act phase of the get-or-create-active-cart block (merge-cart lines
66-75): keep the found cart, or insert a fresh ACTIVE cart when the query
returned null. -/
def getOrCreateCartAct (s : Store) (u : String) : Option CartRow → CartRow × Store
  | some c => (c, s)
  | none => insertCart s u "ACTIVE"

/-- One iteration of the merge loop (merge-cart lines 80-102): skip falsy
entries, increment the quantity of the unique existing row for the product, or
insert a new row. -/
def mergeStep (s : Store) (cartId : Nat) (item : MergeItem) : Store :=
  if item.product_id == "" || item.quantity == 0 then s
  else
    match singleMatch ((cartItemsFor s cartId).filter fun r =>
        r.product_id == item.product_id) with
    | some existing => updateCartItemQty s existing.id (existing.quantity + item.quantity)
    | none => (insertCartItem s cartId item.product_id item.quantity).2

/-- The full merge loop over the incoming items. -/
def mergeLoop (s : Store) (cartId : Nat) (items : List MergeItem) : Store :=
  items.foldl (fun acc i => mergeStep acc cartId i) s

/-- The merge-cart handler after authentication resolved `u`.  The body is
`none` when `items` is not an array, mirroring `!Array.isArray(items)`. -/
def mergeItems (u : String) (items : Option (List MergeItem)) (s : Store) :
    MergeResp × Store :=
  match items with
  | none => (.err "Items required" 400, s)
  | some l =>
    if l.isEmpty then (.err "Items required" 400, s)
    else
      let cs := getOrCreateCartAct s u (getOrCreateCartQuery s u)
      let s2 := mergeLoop cs.2 cs.1.id l
      (.ok cs.1.id ((cartItemsFor s2 cs.1.id).map fun r => (r.product_id, r.quantity)), s2)

/-! ## Interleaving model of the get-or-create-cart window, for the
concurrency claim: two requests for the same user each run the query phase and
then the act phase against the shared store; a schedule picks which request
moves at each step. -/

/-- Shared store plus each request's private progress through its two phases:
after its query phase a request holds the query result, after its act phase it
is done. -/
structure RaceState where
  store : Store
  q1 : Option (Option CartRow)
  done1 : Bool
  q2 : Option (Option CartRow)
  done2 : Bool
  deriving DecidableEq, Repr

/-- One scheduler step: the chosen request performs its next pending phase
(query first, then act); a finished request does nothing. -/
def raceStep (u : String) (st : RaceState) (tid : Bool) : RaceState :=
  if tid then
    match st.q1 with
    | none => { st with q1 := some (getOrCreateCartQuery st.store u) }
    | some r =>
      if st.done1 then st
      else { st with store := (getOrCreateCartAct st.store u r).2, done1 := true }
  else
    match st.q2 with
    | none => { st with q2 := some (getOrCreateCartQuery st.store u) }
    | some r =>
      if st.done2 then st
      else { st with store := (getOrCreateCartAct st.store u r).2, done2 := true }

/-- Run two concurrent get-or-create-cart executions under a schedule (`true`
steps request 1, `false` steps request 2) and return the final store. -/
def runRace (u : String) (s : Store) (sched : List Bool) : Store :=
  (sched.foldl (raceStep u) { store := s, q1 := none, done1 := false, q2 := none, done2 := false }).store

/-- The serialized composition: one full get-or-create-cart after another. -/
def getOrCreateTwiceSeq (s : Store) (u : String) : Store :=
  let s1 := (getOrCreateCartAct s u (getOrCreateCartQuery s u)).2
  (getOrCreateCartAct s1 u (getOrCreateCartQuery s1 u)).2

/-! ## create-order (create-order/index.ts) -/

/-- The configuration the handler reads from the environment. -/
structure Env where
  razorpayKeyId : String
  razorpayKeySecret : String
  deriving DecidableEq, Repr

/-- The body of the outbound `POST /v1/orders` gateway request. -/
structure GatewayReq where
  amount : Rat
  currency : String
  receipt : String
  deriving DecidableEq, Repr

/-- Responses of the two create-order handlers. -/
inductive CreateOrderResp where
  | ok (order_id : Nat) (razorpay_order_id : String) (amount : Rat)
      (currency : String) (key : String)
  | err (msg : String) (status : Nat)
  deriving DecidableEq, Repr

/-- Outcome of a create-order invocation: the HTTP response, the resulting
store, and the gateway requests sent while handling. -/
structure CreateOrderOut where
  resp : CreateOrderResp
  store : Store
  sent : List GatewayReq
  deriving DecidableEq, Repr

/-- Steps 8-14 of create-order/index.ts: insert the order, snapshot the cart
items, call the gateway (`gw` is the gateway's response, `none` for a
non-success response), then insert the payment row, back-link the gateway
order id, and lock the cart.  A gateway failure leaves the already-awaited
order and order-item inserts in the store. -/
def createOrderRest (env : Env) (userId : String) (cart : CartRow)
    (items : List JoinedItem) (subTotal : Rat) (amountPaise : Int)
    (gw : Option String) (s : Store) : CreateOrderOut :=
  let os := insertOrder s userId subTotal
  let order := os.1
  let s2 := insertOrderItems os.2 (items.map fun i =>
    { order_id := order.id, product_id := i.product.id, product_name := i.product.name,
      price := i.product.price, qty := i.quantity,
      item_total := (i.quantity : Rat) * i.product.price })
  let req : GatewayReq :=
    { amount := (amountPaise : Rat), currency := "INR",
      receipt := "order_" ++ toString order.id }
  match gw with
  | none => ⟨.err "Razorpay order creation failed" 400, s2, [req]⟩
  | some gid =>
    let s3 := (insertPayment s2 order.id gid (amountPaise : Rat) "CREATED" (some gid)).2
    let s4 := updateOrderGatewayId s3 order.id gid
    let s5 := updateCartStatus s4 cart.id "CONVERTED"
    ⟨.ok order.id gid (amountPaise : Rat) "INR" env.razorpayKeyId, s5, [req]⟩

/-- The create-order handler (create-order/index.ts) after authentication
resolved `userId`: fetch the active cart (maybeSingle), fetch its items, fail
on empty, compute the paise amount, then short-circuit on an existing CREATED
order whose `payment_gateway_order_id` is truthy, else run steps 8-14. -/
def createOrder (env : Env) (userId : String) (gw : Option String) (s : Store) :
    CreateOrderOut :=
  match singleMatch (activeCartsFor s userId) with
  | none => ⟨.err "No active cart found" 400, s, []⟩
  | some cart =>
    let items := joinedCartItems s cart.id
    if items.isEmpty then ⟨.err "Cart is empty" 400, s, []⟩
    else
      let subTotal := cartSubTotal items
      let amountPaise := jsRound (subTotal * 100)
      match singleMatch (createdOrdersFor s userId) with
      | some eo =>
        match eo.payment_gateway_order_id with
        | some g =>
          if g == "" then createOrderRest env userId cart items subTotal amountPaise gw s
          else ⟨.ok eo.id g (amountPaise : Rat) "INR" env.razorpayKeyId, s, []⟩
        | none => createOrderRest env userId cart items subTotal amountPaise gw s
      | none => createOrderRest env userId cart items subTotal amountPaise gw s

/-- The legacy create-order handler (the unnamed source file): fetch the first
active cart (`.limit(1)`), fetch items, fail on empty, insert the order, then
send the raw major-unit subtotal as the gateway `amount` and insert the
payment row with that same amount.  No idempotency lookup, no order-item
snapshot, no gateway-id back-link, no cart lock. -/
def createOrderLegacy (env : Env) (userId : String) (gw : Option String)
    (s : Store) : CreateOrderOut :=
  match (activeCartsFor s userId).head? with
  | none => ⟨.err "No active cart found" 400, s, []⟩
  | some cart =>
    let items := joinedCartItems s cart.id
    if items.isEmpty then ⟨.err "Cart is empty" 400, s, []⟩
    else
      let subTotal := cartSubTotal items
      let os := insertOrder s userId subTotal
      let order := os.1
      let req : GatewayReq :=
        { amount := subTotal, currency := "INR", receipt := "order_" ++ toString order.id }
      match gw with
      | none => ⟨.err "Razorpay order creation failed" 400, os.2, [req]⟩
      | some gid =>
        let s2 := (insertPayment os.2 order.id gid subTotal "CREATED" none).2
        ⟨.ok order.id gid subTotal "INR" env.razorpayKeyId, s2, [req]⟩

/-! ## verify-payment (verify-payment/index.ts) -/

/-- The parsed JSON body; a missing field is `none`. -/
structure VerifyBody where
  razorpay_order_id : Option String
  razorpay_payment_id : Option String
  razorpay_signature : Option String
  deriving DecidableEq, Repr

/-- The inbound request: the Authorization header (which the handler never
reads) and the body. -/
structure VerifyRequest where
  authHeader : Option String
  body : VerifyBody
  deriving DecidableEq, Repr

/-- Responses of the verify-payment handler. -/
inductive VerifyResp where
  | alreadyVerified
  | ok (order_id : Nat)
  | err (msg : String) (status : Nat)
  deriving DecidableEq, Repr

/-- The verify-payment handler: validate the three body fields (JS
truthiness), fetch the unique payment row for the gateway order id, return
success immediately when it is already PAID, check the HMAC signature, and on
success flip the payment and its order to their paid states. -/
def verifyPayment (secret : String) (req : VerifyRequest) (s : Store) :
    VerifyResp × Store :=
  if !(optStrTruthy req.body.razorpay_order_id &&
       optStrTruthy req.body.razorpay_payment_id &&
       optStrTruthy req.body.razorpay_signature) then
    (.err "Missing payment verification fields" 400, s)
  else
    let oid := req.body.razorpay_order_id.getD ""
    let pid := req.body.razorpay_payment_id.getD ""
    let sig := req.body.razorpay_signature.getD ""
    match singleMatch (s.payments.filter fun p => p.razorpay_order_id == oid) with
    | none => (.err "Payment record not found" 400, s)
    | some payment =>
      if payment.status == "PAID" then (.alreadyVerified, s)
      else if !(verifySignature oid pid sig secret) then
        (.err "Invalid Razorpay signature" 400, s)
      else
        let s1 := updatePaymentPaid s payment.id pid
        let s2 := updateOrderPaid s1 payment.order_id
        (.ok payment.order_id, s2)

/-! ## Concrete fixtures used to evaluate the handlers. -/

/-- A test environment configuration. -/
def envTest : Env := { razorpayKeyId := "rzp_test_key", razorpayKeySecret := "s3cret" }

/-- A store where user `u` has an ACTIVE cart holding one unit of product `P1`
at price 1. -/
def storeOneItemCart : Store :=
  { carts := [{ id := 1, user_id := "u", status := "ACTIVE" }],
    cart_items := [{ id := 2, cart_id := 1, product_id := "P1", quantity := 1 }],
    products := [{ id := "P1", name := "Widget", price := 1 }],
    orders := [], order_items := [], payments := [], nextId := 3 }

/-- A store where user `u` has an ACTIVE cart holding two units of `P1` at
price 50: subtotal 100 major units. -/
def storeQty2Price50 : Store :=
  { carts := [{ id := 1, user_id := "u", status := "ACTIVE" }],
    cart_items := [{ id := 2, cart_id := 1, product_id := "P1", quantity := 2 }],
    products := [{ id := "P1", name := "Widget", price := 50 }],
    orders := [], order_items := [], payments := [], nextId := 3 }

/-- A store where user `u` has an ACTIVE cart already holding three units of
`P1`. -/
def storeP1Qty3 : Store :=
  { carts := [{ id := 1, user_id := "u", status := "ACTIVE" }],
    cart_items := [{ id := 2, cart_id := 1, product_id := "P1", quantity := 3 }],
    products := [{ id := "P1", name := "Widget", price := 1 }],
    orders := [], order_items := [], payments := [], nextId := 3 }

/-- An existing CREATED order for `u` with grand total 100 and a gateway order
id already recorded. -/
def orderShortCircuit : OrderRow :=
  { id := 10, user_id := "u", sub_total := 100, discount_total := 0,
    grand_total := 100, status := "CREATED", payment_status := "CREATED",
    payment_gateway_order_id := some "rzp_old" }

/-- A store holding `orderShortCircuit` together with a fresh ACTIVE cart whose
current subtotal is 60, not the 100 the stored order captured. -/
def storeShortCircuit : Store :=
  { carts := [{ id := 5, user_id := "u", status := "ACTIVE" }],
    cart_items := [{ id := 6, cart_id := 5, product_id := "P2", quantity := 1 }],
    products := [{ id := "P2", name := "Gadget", price := 60 }],
    orders := [orderShortCircuit],
    order_items := [], payments := [], nextId := 20 }

/-- The hex digest `HMAC-SHA256("s3cret", "order_1|pay_1")`, as the embedded
hash computes it. -/
def expectedSig1 : String :=
  "44422d618d76e6e81c5f002f4d5108385750b52eb8db4e9c7a4231ddfac02840"

/-- A CREATED order awaiting payment confirmation. -/
def orderPending : OrderRow :=
  { id := 10, user_id := "u", sub_total := 100, discount_total := 0,
    grand_total := 100, status := "CREATED", payment_status := "CREATED",
    payment_gateway_order_id := some "order_1" }

/-- The CREATED payment row linked to `orderPending` via gateway order id
`order_1`. -/
def paymentPending : PaymentRow :=
  { id := 11, order_id := 10, razorpay_order_id := "order_1",
    razorpay_payment_id := none, amount := 10000, status := "CREATED",
    raw_payload := some "order_1" }

/-- A store with one pending order/payment pair awaiting verification. -/
def storePending : Store :=
  { carts := [], cart_items := [], products := [], orders := [orderPending],
    order_items := [], payments := [paymentPending], nextId := 12 }

/-- The payment row after a successful verification. -/
def paymentPaid : PaymentRow :=
  { id := 11, order_id := 10, razorpay_order_id := "order_1",
    razorpay_payment_id := some "pay_1", amount := 10000, status := "PAID",
    raw_payload := some "order_1" }

/-- A store whose payment for `order_1` is already PAID. -/
def storePaid : Store :=
  { carts := [], cart_items := [], products := [], orders := [orderPending],
    order_items := [], payments := [paymentPaid], nextId := 12 }

/-- A verification body carrying the genuine signature for
`order_1` and `pay_1` under secret `s3cret`. -/
def verifyBodyOk : VerifyBody :=
  { razorpay_order_id := some "order_1", razorpay_payment_id := some "pay_1",
    razorpay_signature := some expectedSig1 }

/-- A store where user `u` has an ACTIVE cart with no items. -/
def storeEmptyCart : Store :=
  { carts := [{ id := 1, user_id := "u", status := "ACTIVE" }],
    cart_items := [], products := [], orders := [], order_items := [],
    payments := [], nextId := 2 }

/-- Every CONFIRMED order of `t` was already CONFIRMED (same row id) in `s`:
the step from `s` to `t` created no new CONFIRMED order. -/
def confirmedInherited (s t : Store) : Prop :=
  ∀ o ∈ t.orders, o.status = "CONFIRMED" →
    ∃ o0 ∈ s.orders, o0.id = o.id ∧ o0.status = "CONFIRMED"

set_option maxRecDepth 100000

/-- C2: the verify-payment signature check accepts a candidate signature iff it
equals the lower-case hex HMAC-SHA256 of `"orderId|paymentId"` under the
secret; for orderId `order_1`, paymentId `pay_1`, secret `s3cret` exactly the
digest `44422d61...c02840` is accepted, and a mutated digest (last hex digit
changed) is rejected. -/
theorem verifySignature_accepts_exactly_hmac_hex :
    (∀ orderId paymentId signature secret,
      verifySignature orderId paymentId signature secret = true ↔
        signature = hmacSha256Hex secret (orderId ++ "|" ++ paymentId)) ∧
    hmacSha256Hex "s3cret" "order_1|pay_1" = expectedSig1 ∧
    verifySignature "order_1" "pay_1" expectedSig1 "s3cret" = true ∧
    verifySignature "order_1" "pay_1"
      "44422d618d76e6e81c5f002f4d5108385750b52eb8db4e9c7a4231ddfac02841"
      "s3cret" = false := by
  have hiff : ∀ orderId paymentId signature secret,
      verifySignature orderId paymentId signature secret = true ↔
        signature = hmacSha256Hex secret (orderId ++ "|" ++ paymentId) := by
    intro orderId paymentId signature secret
    unfold verifySignature
    constructor
    · intro h
      exact (eq_of_beq h).symm
    · intro h
      rw [h]
      exact beq_self_eq_true _
  have happ : ("order_1" : String) ++ "|" ++ "pay_1" = "order_1|pay_1" := by decide
  have hdig : hmacSha256Hex "s3cret" "order_1|pay_1" = expectedSig1 := by decide
  refine ⟨hiff, hdig, ?_, ?_⟩
  · exact (hiff "order_1" "pay_1" expectedSig1 "s3cret").mpr (by rw [happ, hdig])
  · apply Bool.eq_false_iff.mpr
    intro h
    have hd := (hiff "order_1" "pay_1" _ "s3cret").mp h
    rw [happ, hdig] at hd
    exact absurd hd (by decide)

/-- C3: when the payment row found for the gateway order id is already PAID,
verify-payment answers success ("already verified") and leaves the store
untouched, for every signature value and every secret — the HMAC is never
consulted and no state is written. -/
theorem verifyPayment_already_paid_short_circuit
    (secret : String) (req : VerifyRequest) (s : Store) (p : PaymentRow)
    (h1 : optStrTruthy req.body.razorpay_order_id = true)
    (h2 : optStrTruthy req.body.razorpay_payment_id = true)
    (h3 : optStrTruthy req.body.razorpay_signature = true)
    (hp : singleMatch (s.payments.filter fun q =>
      q.razorpay_order_id == req.body.razorpay_order_id.getD "") = some p)
    (hpaid : p.status = "PAID") :
    verifyPayment secret req s = (VerifyResp.alreadyVerified, s) := by
  simp [verifyPayment, h1, h2, h3, hp, hpaid]

/-- Witness for C3: a replayed callback against the PAID fixture succeeds with
no store change under an arbitrary secret. -/
theorem verifyPayment_already_paid_short_circuit_witness :
    verifyPayment "other-secret" { authHeader := none, body := verifyBodyOk }
      storePaid = (VerifyResp.alreadyVerified, storePaid) :=
  verifyPayment_already_paid_short_circuit "other-secret" _ _ paymentPaid
    (by decide) (by decide) (by decide) (by decide) (by decide)

/-- C10: verify-payment never reads the Authorization header — two requests
with equal bodies produce equal responses and equal stores, whatever the
headers carry. -/
theorem verifyPayment_independent_of_auth
    (secret : String) (s : Store) (r1 r2 : VerifyRequest)
    (h : r1.body = r2.body) :
    verifyPayment secret r1 s = verifyPayment secret r2 s := by
  unfold verifyPayment
  rw [h]

/-- Witness for C10: the same body with no header and with an attacker header
gives identical outcomes. -/
theorem verifyPayment_independent_of_auth_witness :
    verifyPayment "s3cret" { authHeader := none, body := verifyBodyOk }
        storePending =
      verifyPayment "s3cret"
        { authHeader := some "Bearer forged", body := verifyBodyOk }
        storePending :=
  verifyPayment_independent_of_auth "s3cret" storePending _ _ rfl

/-- The JavaScript rounding is the integer floor of the shifted value. -/
theorem jsRound_eq (q : Rat) : jsRound q = ⌊q + 1 / 2⌋ := by
  rw [jsRound, Rat.floor_def', ← Rat.floor_def]

/-- A create-order run that finds a non-empty active cart and no existing
CREATED order sends exactly one gateway request, whose amount is the rounded
minor-unit subtotal. -/
theorem createOrder_sent_amount (env : Env) (u : String) (gw : Option String)
    (s : Store) (c : CartRow)
    (hc : singleMatch (activeCartsFor s u) = some c)
    (hne : (joinedCartItems s c.id).isEmpty = false)
    (hno : singleMatch (createdOrdersFor s u) = none) :
    (createOrder env u gw s).sent =
      [{ amount := ((jsRound (cartSubTotal (joinedCartItems s c.id) * 100) : Int) : Rat),
         currency := "INR", receipt := "order_" ++ toString s.nextId }] := by
  unfold createOrder createOrderRest
  rw [hc]
  simp only [hne, hno, Bool.false_eq_true, if_false]
  cases gw <;> simp [insertOrder]

/-- A legacy create-order run that finds a non-empty active cart sends exactly
one gateway request, whose amount is the raw major-unit subtotal. -/
theorem createOrderLegacy_sent_amount (env : Env) (u : String)
    (gw : Option String) (s : Store) (c : CartRow)
    (hc : (activeCartsFor s u).head? = some c)
    (hne : (joinedCartItems s c.id).isEmpty = false) :
    (createOrderLegacy env u gw s).sent =
      [{ amount := cartSubTotal (joinedCartItems s c.id),
         currency := "INR", receipt := "order_" ++ toString s.nextId }] := by
  unfold createOrderLegacy
  rw [hc]
  simp only [hne, Bool.false_eq_true, if_false]
  cases gw <;> simp [insertOrder]

/-- The subtotal of the fixture cart holding two units of P1 at price 50. -/
theorem storeQty2Price50_subtotal :
    cartSubTotal (joinedCartItems storeQty2Price50 1) = 100 := by
  simp [cartSubTotal, joinedCartItems, cartItemsFor, productFor, storeQty2Price50]
  norm_num

/-- C5 (code-bug evidence): `Math.round(subTotal * 100)` yields exactly 19950
for subtotal 199.5 and 10000 for subtotal 100, and the current create-order
handler sends that minor-unit integer to the gateway; the legacy handler sends
the raw major-unit subtotal (100, not 10000) for the same cart, contradicting
its own `// paise` comment. -/
theorem gateway_amount_fixed_handler_vs_legacy :
    jsRound ((199.5 : Rat) * 100) = 19950 ∧
    jsRound ((100 : Rat) * 100) = 10000 ∧
    (createOrder envTest "u" (some "rzp_1") storeQty2Price50).sent =
      [{ amount := 10000, currency := "INR", receipt := "order_3" }] ∧
    (createOrderLegacy envTest "u" (some "rzp_1") storeQty2Price50).sent =
      [{ amount := 100, currency := "INR", receipt := "order_3" }] ∧
    (100 : Rat) ≠ 10000 := by
  have h1 : jsRound ((199.5 : Rat) * 100) = 19950 := by
    rw [jsRound_eq]; norm_num
  have h2 : jsRound ((100 : Rat) * 100) = 10000 := by
    rw [jsRound_eq]; norm_num
  refine ⟨h1, h2, ?_, ?_, by norm_num⟩
  · rw [createOrder_sent_amount envTest "u" (some "rzp_1") storeQty2Price50
      { id := 1, user_id := "u", status := "ACTIVE" } (by decide) (by decide) (by decide)]
    simp only [storeQty2Price50_subtotal, h2]
    norm_num [storeQty2Price50]
    decide
  · rw [createOrderLegacy_sent_amount envTest "u" (some "rzp_1") storeQty2Price50
      { id := 1, user_id := "u", status := "ACTIVE" } (by decide) (by decide)]
    simp only [storeQty2Price50_subtotal]
    norm_num [storeQty2Price50]
    decide

/-- C6 counterexample: the schedule query-1, query-2, act-1, act-2 of two
concurrent get-or-create-cart executions for the same user, started on a store
with no carts, ends with two ACTIVE carts for that user. -/
theorem race_interleaving_two_active_carts :
    (activeCartsFor (runRace "u" emptyStore [true, false, true, false])
      "u").length = 2 := by decide

/-- C8 counterexample: merging the single entry `(P1, quantity -5)` — an entry
with no positive quantity — into the cart that holds one unit of P1 changes
the cart (the row becomes quantity -4) instead of being skipped. -/
theorem merge_negative_quantity_changes_cart :
    (mergeItems "u" (some [{ product_id := "P1", quantity := -5 }])
        storeOneItemCart).2.cart_items =
      [{ id := 2, cart_id := 1, product_id := "P1", quantity := -4 }] ∧
    (mergeItems "u" (some [{ product_id := "P1", quantity := -5 }])
        storeOneItemCart).2.cart_items ≠ storeOneItemCart.cart_items :=
  ⟨by decide, by decide⟩

/-- C1 counterexample: starting from a user with a one-item ACTIVE cart, a
first create-order call whose gateway call fails leaves one CREATED order; a
second call then inserts a second CREATED order for the same user.  Moreover
after a fully successful first call a retry does not return the same
order — it fails with "No active cart found" because the cart was locked. -/
theorem createOrder_repeat_not_idempotent :
    (createdOrdersFor (createOrder envTest "u" none storeOneItemCart).store
      "u").length = 1 ∧
    (createdOrdersFor
      (createOrder envTest "u" (some "rzp_2")
        (createOrder envTest "u" none storeOneItemCart).store).store
      "u").length = 2 ∧
    (createOrder envTest "u" (some "rzp_2")
        (createOrder envTest "u" (some "rzp_1") storeOneItemCart).store).resp =
      CreateOrderResp.err "No active cart found" 400 :=
  ⟨by decide, by decide, by decide⟩

/-- Inserting an ACTIVE cart appends one matching row to the user's active
cart list. -/
theorem activeCartsFor_insertCart (s : Store) (u : String) :
    activeCartsFor (insertCart s u "ACTIVE").2 u =
      activeCartsFor s u ++ [(insertCart s u "ACTIVE").1] := by
  simp [activeCartsFor, insertCart, List.filter_append]

/-- C6 (amended): the two-phase query-then-act window DOES admit an
interleaving of two concurrent get-or-create-cart executions that leaves two
ACTIVE carts for one user; the at-most-one-ACTIVE-cart invariant is preserved
only when the two executions run serialized, one after the other. -/
theorem get_or_create_cart_race_vs_serialized
    (s : Store) (u : String) (h : (activeCartsFor s u).length ≤ 1) :
    (activeCartsFor (getOrCreateTwiceSeq s u) u).length ≤ 1 ∧
    (activeCartsFor (runRace "v" emptyStore [true, false, true, false])
      "v").length = 2 := by
  refine ⟨?_, by decide⟩
  unfold getOrCreateTwiceSeq
  cases hl : activeCartsFor s u with
  | nil =>
    have hq1 : getOrCreateCartQuery s u = none := by
      rw [getOrCreateCartQuery, hl]; rfl
    rw [hq1]
    have hs1 : activeCartsFor ((getOrCreateCartAct s u none).2) u =
        [(insertCart s u "ACTIVE").1] := by
      show activeCartsFor (insertCart s u "ACTIVE").2 u = _
      rw [activeCartsFor_insertCart, hl]
      rfl
    have hq2 : getOrCreateCartQuery ((getOrCreateCartAct s u none).2) u =
        some (insertCart s u "ACTIVE").1 := by
      rw [getOrCreateCartQuery, hs1]; rfl
    dsimp only
    rw [hq2]
    show (activeCartsFor ((getOrCreateCartAct s u none).2) u).length ≤ 1
    rw [hs1]
    simp
  | cons x xs =>
    cases xs with
    | nil =>
      have hq1 : getOrCreateCartQuery s u = some x := by
        rw [getOrCreateCartQuery, hl]; rfl
      rw [hq1]
      show (activeCartsFor
        ((getOrCreateCartAct s u (getOrCreateCartQuery s u)).2) u).length ≤ 1
      rw [hq1]
      show (activeCartsFor s u).length ≤ 1
      exact h
    | cons y ys =>
      rw [hl] at h
      simp at h

/-- Witness for C6 at the empty store. -/
theorem get_or_create_cart_race_vs_serialized_witness :
    (activeCartsFor (getOrCreateTwiceSeq emptyStore "w") "w").length ≤ 1 ∧
    (activeCartsFor (runRace "v" emptyStore [true, false, true, false])
      "v").length = 2 :=
  get_or_create_cart_race_vs_serialized emptyStore "w" (by decide)

/-- C7: one merge-loop iteration on an entry with a truthy product id and
quantity increments the unique existing row for that product in place (no row
added) and inserts a fresh row when none exists; concretely, merging
`(P1, 2)` into the cart holding three units of P1 answers `(P1, 5)` with a
single row of quantity 5. -/
theorem mergeStep_accumulates_or_inserts
    (s : Store) (cid : Nat) (item : MergeItem) (r : CartItemRow)
    (hpid : (item.product_id == "") = false)
    (hq : (item.quantity == 0) = false) :
    (((cartItemsFor s cid).filter fun x => x.product_id == item.product_id) =
        [r] →
      mergeStep s cid item =
        updateCartItemQty s r.id (r.quantity + item.quantity) ∧
      (mergeStep s cid item).cart_items.length = s.cart_items.length) ∧
    (((cartItemsFor s cid).filter fun x => x.product_id == item.product_id) =
        [] →
      mergeStep s cid item =
        (insertCartItem s cid item.product_id item.quantity).2) ∧
    (mergeItems "u" (some [{ product_id := "P1", quantity := 2 }])
        storeP1Qty3).1 = MergeResp.ok 1 [("P1", 5)] ∧
    (mergeItems "u" (some [{ product_id := "P1", quantity := 2 }])
        storeP1Qty3).2.cart_items =
      [{ id := 2, cart_id := 1, product_id := "P1", quantity := 5 }] := by
  refine ⟨?_, ?_, by decide, by decide⟩
  · intro hf
    constructor
    · simp [mergeStep, hpid, hq, hf, singleMatch]
    · simp [mergeStep, hpid, hq, hf, singleMatch, updateCartItemQty]
  · intro hf
    simp [mergeStep, hpid, hq, hf, singleMatch]

/-- Witness for C7: the accumulate branch at the three-unit fixture. -/
theorem mergeStep_accumulates_or_inserts_witness :
    mergeStep storeP1Qty3 1 { product_id := "P1", quantity := 2 } =
      updateCartItemQty storeP1Qty3 2 (3 + 2) ∧
    (mergeStep storeP1Qty3 1
      { product_id := "P1", quantity := 2 }).cart_items.length =
      storeP1Qty3.cart_items.length :=
  (mergeStep_accumulates_or_inserts storeP1Qty3 1
    { product_id := "P1", quantity := 2 }
    { id := 2, cart_id := 1, product_id := "P1", quantity := 3 }
    (by decide) (by decide)).1 (by decide)

/-- C8 (amended): the handler answers 400 ("Items required") exactly when the
body's items is not an array or is the empty array, and otherwise succeeds; an
entry whose product id is missing or whose quantity is zero/missing is skipped
(the store is unchanged by it), but an entry with a negative quantity is not
skipped — it is merged as-is. -/
theorem mergeItems_validation_and_skip :
    (∀ u s, (mergeItems u none s).1 = MergeResp.err "Items required" 400 ∧
      (mergeItems u (some []) s).1 = MergeResp.err "Items required" 400) ∧
    (∀ u s l, ¬ l = [] →
      ∃ cid its, (mergeItems u (some l) s).1 = MergeResp.ok cid its) ∧
    (∀ s cid item, item.product_id = "" ∨ item.quantity = 0 →
      mergeStep s cid item = s) := by
  refine ⟨fun u s => ⟨rfl, rfl⟩, ?_, ?_⟩
  · intro u s l hl
    match l with
    | [] => exact absurd rfl hl
    | x :: xs => exact ⟨_, _, rfl⟩
  · intro s cid item h
    rcases h with h | h
    · simp [mergeStep, h]
    · simp [mergeStep, h]

/-- Witness for C8: a one-entry valid body succeeds, and a zero-quantity entry
leaves the store untouched. -/
theorem mergeItems_validation_and_skip_witness :
    (∃ cid its,
      (mergeItems "u" (some [{ product_id := "P1", quantity := 1 }])
        emptyStore).1 = MergeResp.ok cid its) ∧
    mergeStep emptyStore 1 { product_id := "P2", quantity := 0 } = emptyStore :=
  ⟨mergeItems_validation_and_skip.2.1 "u" emptyStore
      [{ product_id := "P1", quantity := 1 }] (by simp),
    mergeItems_validation_and_skip.2.2 emptyStore 1
      { product_id := "P2", quantity := 0 } (Or.inr rfl)⟩

/-- When a non-empty active cart exists and the unique CREATED order for the
user carries a truthy gateway order id, create-order returns that order's ids
with the amount recomputed from the current cart, writes nothing, and sends no
gateway request. -/
theorem createOrder_short_circuit_eq
    (env : Env) (u : String) (gw : Option String) (s : Store)
    (c : CartRow) (eo : OrderRow) (g : String)
    (hc : singleMatch (activeCartsFor s u) = some c)
    (hne : (joinedCartItems s c.id).isEmpty = false)
    (ho : singleMatch (createdOrdersFor s u) = some eo)
    (hg : eo.payment_gateway_order_id = some g)
    (hge : (g == "") = false) :
    createOrder env u gw s =
      { resp := CreateOrderResp.ok eo.id g
          ((jsRound (cartSubTotal (joinedCartItems s c.id) * 100) : Int) : Rat)
          "INR" env.razorpayKeyId,
        store := s, sent := [] } := by
  unfold createOrder
  rw [hc]
  simp only [hne, Bool.false_eq_true, if_false, ho, hg, hge]

/-- C1 (amended): while the user still holds a non-empty ACTIVE cart and the
unique CREATED order for that user has a gateway order id recorded, a
create-order call returns that order id and gateway order id unchanged,
touches no row and sends nothing to the gateway, so a second call returns the
identical ids; the original claim fails when the existing CREATED order has no
gateway order id or when the cart was already locked (see the
counterexample). -/
theorem createOrder_idempotent_when_gateway_id_present
    (env : Env) (u : String) (gw gw2 : Option String) (s : Store)
    (c : CartRow) (eo : OrderRow) (g : String)
    (hc : singleMatch (activeCartsFor s u) = some c)
    (hne : (joinedCartItems s c.id).isEmpty = false)
    (ho : singleMatch (createdOrdersFor s u) = some eo)
    (hg : eo.payment_gateway_order_id = some g)
    (hge : (g == "") = false) :
    createOrder env u gw s =
      { resp := CreateOrderResp.ok eo.id g
          ((jsRound (cartSubTotal (joinedCartItems s c.id) * 100) : Int) : Rat)
          "INR" env.razorpayKeyId,
        store := s, sent := [] } ∧
    createOrder env u gw2 ((createOrder env u gw s).store) =
      createOrder env u gw s := by
  have h1 := createOrder_short_circuit_eq env u gw s c eo g hc hne ho hg hge
  have h2 := createOrder_short_circuit_eq env u gw2 s c eo g hc hne ho hg hge
  refine ⟨h1, ?_⟩
  rw [h1]
  exact h2

/-- Witness for C1 at the short-circuit fixture: a retry returns order 10 and
gateway id rzp_old with no store change, and a further call answers the
same. -/
theorem createOrder_idempotent_when_gateway_id_present_witness :
    createOrder envTest "u" (some "rzp_new") storeShortCircuit =
      { resp := CreateOrderResp.ok 10 "rzp_old"
          ((jsRound (cartSubTotal (joinedCartItems storeShortCircuit 5) * 100) :
            Int) : Rat) "INR" "rzp_test_key",
        store := storeShortCircuit, sent := [] } ∧
    createOrder envTest "u" none
        ((createOrder envTest "u" (some "rzp_new") storeShortCircuit).store) =
      createOrder envTest "u" (some "rzp_new") storeShortCircuit :=
  createOrder_idempotent_when_gateway_id_present envTest "u" (some "rzp_new")
    none storeShortCircuit { id := 5, user_id := "u", status := "ACTIVE" }
    orderShortCircuit "rzp_old" (by decide) (by decide) (by decide) (by decide)
    (by decide)

/-- The subtotal of the short-circuit fixture's current cart is 60. -/
theorem storeShortCircuit_subtotal :
    cartSubTotal (joinedCartItems storeShortCircuit 5) = 60 := by
  simp [cartSubTotal, joinedCartItems, cartItemsFor, productFor,
    storeShortCircuit]

/-- C9: the existing-order short-circuit of create-order is reachable only
past the active-cart fetch and subtotal computation — with no active cart the
handler fails with "No active cart found", with an empty one it fails with
"Cart is empty" — and on the short-circuit path the response amount is
recomputed as round(100 × current cart subtotal), not read from the stored
order: at the fixture the reply for stored order 10 (grand total 100) carries
amount 6000, computed from the current cart subtotal 60, instead of 10000. -/
theorem createOrder_short_circuit_amount_recomputed :
    (∀ env u gw s, singleMatch (activeCartsFor s u) = none →
      (createOrder env u gw s).resp =
        CreateOrderResp.err "No active cart found" 400) ∧
    (∀ env u gw s c, singleMatch (activeCartsFor s u) = some c →
      (joinedCartItems s c.id).isEmpty = true →
      (createOrder env u gw s).resp = CreateOrderResp.err "Cart is empty" 400) ∧
    (∀ env u gw s c eo g, singleMatch (activeCartsFor s u) = some c →
      (joinedCartItems s c.id).isEmpty = false →
      singleMatch (createdOrdersFor s u) = some eo →
      eo.payment_gateway_order_id = some g → (g == "") = false →
      (createOrder env u gw s).resp =
        CreateOrderResp.ok eo.id g
          ((jsRound (cartSubTotal (joinedCartItems s c.id) * 100) : Int) : Rat)
          "INR" env.razorpayKeyId) ∧
    (createOrder envTest "u" (some "ignored") storeShortCircuit).resp =
      CreateOrderResp.ok 10 "rzp_old" 6000 "INR" "rzp_test_key" ∧
    jsRound (orderShortCircuit.grand_total * 100) = 10000 ∧
    (6000 : Rat) ≠ 10000 := by
  have hshort : ∀ env u gw s c eo g,
      singleMatch (activeCartsFor s u) = some c →
      (joinedCartItems s c.id).isEmpty = false →
      singleMatch (createdOrdersFor s u) = some eo →
      eo.payment_gateway_order_id = some g → (g == "") = false →
      (createOrder env u gw s).resp =
        CreateOrderResp.ok eo.id g
          ((jsRound (cartSubTotal (joinedCartItems s c.id) * 100) : Int) : Rat)
          "INR" env.razorpayKeyId := by
    intro env u gw s c eo g hc hne ho hg hge
    rw [createOrder_short_circuit_eq env u gw s c eo g hc hne ho hg hge]
  refine ⟨?_, ?_, hshort, ?_, ?_, by norm_num⟩
  · intro env u gw s hc
    unfold createOrder
    rw [hc]
  · intro env u gw s c hc he
    unfold createOrder
    rw [hc]
    simp only [he, if_true]
  · rw [hshort envTest "u" (some "ignored") storeShortCircuit
      { id := 5, user_id := "u", status := "ACTIVE" } orderShortCircuit
      "rzp_old" (by decide) (by decide) (by decide) (by decide) (by decide)]
    rw [storeShortCircuit_subtotal]
    have h60 : jsRound ((60 : Rat) * 100) = 6000 := by
      rw [jsRound_eq]; norm_num
    rw [h60]
    norm_num [orderShortCircuit, envTest]
  · show jsRound ((100 : Rat) * 100) = 10000
    rw [jsRound_eq]; norm_num

/-- Witness for C9: the no-cart and empty-cart failure branches at concrete
stores. -/
theorem createOrder_short_circuit_amount_recomputed_witness :
    (createOrder envTest "w" none emptyStore).resp =
      CreateOrderResp.err "No active cart found" 400 ∧
    (createOrder envTest "u" none storeEmptyCart).resp =
      CreateOrderResp.err "Cart is empty" 400 :=
  ⟨createOrder_short_circuit_amount_recomputed.1 envTest "w" none emptyStore
      (by decide),
    createOrder_short_circuit_amount_recomputed.2.1 envTest "u" none
      storeEmptyCart { id := 1, user_id := "u", status := "ACTIVE" }
      (by decide) (by decide)⟩

/-- The cart get-or-create act phase never touches the orders table. -/
theorem getOrCreateCartAct_orders (s : Store) (u : String)
    (q : Option CartRow) : ((getOrCreateCartAct s u q).2).orders = s.orders := by
  cases q <;> rfl

/-- One merge iteration never touches the orders table. -/
theorem mergeStep_orders (s : Store) (cid : Nat) (i : MergeItem) :
    (mergeStep s cid i).orders = s.orders := by
  unfold mergeStep
  split
  · rfl
  · split <;> rfl

/-- The merge loop never touches the orders table. -/
theorem mergeLoop_orders (l : List MergeItem) (s : Store) (cid : Nat) :
    (mergeLoop s cid l).orders = s.orders := by
  induction l generalizing s with
  | nil => rfl
  | cons x xs ih =>
    have hstep : mergeLoop s cid (x :: xs) =
        mergeLoop (mergeStep s cid x) cid xs := by
      simp [mergeLoop]
    rw [hstep, ih, mergeStep_orders]

/-- The merge-cart handler never touches the orders table. -/
theorem mergeItems_orders (u : String) (items : Option (List MergeItem))
    (s : Store) : (mergeItems u items s).2.orders = s.orders := by
  cases items with
  | none => rfl
  | some l =>
    by_cases hl : l.isEmpty
    · simp [mergeItems, hl]
    · simp [mergeItems, hl, mergeLoop_orders, getOrCreateCartAct_orders]

/-- No-step inheritance: a store inherits its own CONFIRMED orders. -/
theorem confirmedInherited_refl (s : Store) : confirmedInherited s s :=
  fun o ho hc => ⟨o, ho, rfl, hc⟩

/-- Inheritance composes along successive store transitions. -/
theorem confirmedInherited_trans {s t r : Store}
    (h1 : confirmedInherited s t) (h2 : confirmedInherited t r) :
    confirmedInherited s r := by
  intro o ho hc
  obtain ⟨o1, ho1, hid, hst⟩ := h2 o ho hc
  obtain ⟨o0, ho0, hid0, hst0⟩ := h1 o1 ho1 hst
  exact ⟨o0, ho0, hid0.trans hid, hst0⟩

/-- A step that leaves the orders table unchanged inherits CONFIRMED rows. -/
theorem confirmedInherited_of_orders_eq {s t : Store}
    (h : t.orders = s.orders) : confirmedInherited s t := by
  intro o ho hc
  rw [h] at ho
  exact ⟨o, ho, rfl, hc⟩

/-- Inserting a fresh order (whose status is CREATED) creates no CONFIRMED
row. -/
theorem confirmedInherited_insertOrder (s : Store) (u : String) (t : Rat) :
    confirmedInherited s ((insertOrder s u t).2) := by
  intro o ho hc
  simp only [insertOrder, List.mem_append, List.mem_singleton] at ho
  rcases ho with h | h
  · exact ⟨o, h, rfl, hc⟩
  · rw [h] at hc
    simp at hc

/-- Back-linking the gateway order id preserves every row's id and status. -/
theorem confirmedInherited_updateOrderGatewayId (s : Store) (oid : Nat)
    (g : String) : confirmedInherited s (updateOrderGatewayId s oid g) := by
  intro o ho hc
  simp only [updateOrderGatewayId] at ho
  obtain ⟨o0, ho0, heq⟩ := List.mem_map.mp ho
  refine ⟨o0, ho0, ?_, ?_⟩
  · split at heq <;> rw [← heq]
  · split at heq <;> rw [← heq] at hc <;> exact hc

/-- Steps 8-14 of create-order create no CONFIRMED order. -/
theorem createOrderRest_confirmedInherited (env : Env) (u : String)
    (cart : CartRow) (items : List JoinedItem) (subTotal : Rat)
    (amountPaise : Int) (gw : Option String) (s : Store) :
    confirmedInherited s (createOrderRest env u cart items subTotal
      amountPaise gw s).store := by
  unfold createOrderRest
  dsimp only
  cases gw with
  | none =>
    dsimp only
    exact confirmedInherited_trans (confirmedInherited_insertOrder s u subTotal)
      (confirmedInherited_of_orders_eq rfl)
  | some gid =>
    dsimp only
    refine confirmedInherited_trans (confirmedInherited_insertOrder s u subTotal)
      (confirmedInherited_trans (confirmedInherited_of_orders_eq rfl) ?_)
    exact confirmedInherited_trans
      (confirmedInherited_updateOrderGatewayId _ _ gid)
      (confirmedInherited_of_orders_eq rfl)

/-- The create-order handler creates no CONFIRMED order. -/
theorem createOrder_confirmedInherited (env : Env) (u : String)
    (gw : Option String) (s : Store) :
    confirmedInherited s (createOrder env u gw s).store := by
  unfold createOrder
  dsimp only
  repeat' split
  all_goals (try dsimp only)
  all_goals
    first
      | exact confirmedInherited_refl s
      | exact createOrderRest_confirmedInherited _ _ _ _ _ _ _ _

/-- The legacy create-order handler creates no CONFIRMED order. -/
theorem createOrderLegacy_confirmedInherited (env : Env) (u : String)
    (gw : Option String) (s : Store) :
    confirmedInherited s (createOrderLegacy env u gw s).store := by
  unfold createOrderLegacy
  dsimp only
  repeat' split
  all_goals (try dsimp only)
  all_goals
    first
      | exact confirmedInherited_refl s
      | exact confirmedInherited_insertOrder s u _

/-- The success path of verify-payment: with truthy fields, a unique non-PAID
payment row for the gateway order id, and a valid signature, the handler
answers success with the payment's order id, and the resulting store is
exactly the input store with the payment marked PAID (gateway payment id
recorded) and its order marked CONFIRMED/PAID. -/
theorem verifyPayment_success_eq
    (secret : String) (req : VerifyRequest) (s : Store) (p : PaymentRow)
    (h1 : optStrTruthy req.body.razorpay_order_id = true)
    (h2 : optStrTruthy req.body.razorpay_payment_id = true)
    (h3 : optStrTruthy req.body.razorpay_signature = true)
    (hp : singleMatch (s.payments.filter fun q =>
      q.razorpay_order_id == req.body.razorpay_order_id.getD "") = some p)
    (hnp : (p.status == "PAID") = false)
    (hsig : verifySignature (req.body.razorpay_order_id.getD "")
      (req.body.razorpay_payment_id.getD "")
      (req.body.razorpay_signature.getD "") secret = true) :
    verifyPayment secret req s =
      (VerifyResp.ok p.order_id,
        updateOrderPaid
          (updatePaymentPaid s p.id (req.body.razorpay_payment_id.getD ""))
          p.order_id) := by
  simp [verifyPayment, h1, h2, h3, hp, hnp, hsig]

/-- Big-step inversion for verify-payment: either the store is returned
unchanged, or the signature verified and the result is exactly the success
outcome for the matched payment row. -/
theorem verifyPayment_cases (secret : String) (req : VerifyRequest)
    (s : Store) :
    (verifyPayment secret req s).2 = s ∨
    ∃ p : PaymentRow, verifySignature (req.body.razorpay_order_id.getD "")
        (req.body.razorpay_payment_id.getD "")
        (req.body.razorpay_signature.getD "") secret = true ∧
      verifyPayment secret req s =
        (VerifyResp.ok p.order_id,
          updateOrderPaid
            (updatePaymentPaid s p.id (req.body.razorpay_payment_id.getD ""))
            p.order_id) := by
  unfold verifyPayment
  dsimp only
  split
  · exact Or.inl rfl
  · split
    · exact Or.inl rfl
    · split
      · exact Or.inl rfl
      · split
        · exact Or.inl rfl
        · rename_i p hp hpaid hsig
          refine Or.inr ⟨p, ?_, rfl⟩
          simpa using hsig

/-- Any order CONFIRMED after a verify-payment call either was CONFIRMED
before, or is the order of the payment the call successfully verified (the
response names it and the signature check passed). -/
theorem verifyPayment_confirmed_path (secret : String) (req : VerifyRequest)
    (s : Store) :
    ∀ o ∈ (verifyPayment secret req s).2.orders, o.status = "CONFIRMED" →
      (∃ o0 ∈ s.orders, o0.id = o.id ∧ o0.status = "CONFIRMED") ∨
      ((verifyPayment secret req s).1 = VerifyResp.ok o.id ∧
        verifySignature (req.body.razorpay_order_id.getD "")
          (req.body.razorpay_payment_id.getD "")
          (req.body.razorpay_signature.getD "") secret = true) := by
  intro o ho hc
  rcases verifyPayment_cases secret req s with h | ⟨p, hsig, heq⟩
  · rw [h] at ho
    exact Or.inl ⟨o, ho, rfl, hc⟩
  · rw [heq] at ho
    have ho2 : o ∈ (s.orders.map fun o0 =>
        if o0.id == p.order_id then
          { o0 with payment_status := "PAID", status := "CONFIRMED" }
        else o0) := by
      simpa [updateOrderPaid, updatePaymentPaid] using ho
    obtain ⟨o0, ho0, heq2⟩ := List.mem_map.mp ho2
    by_cases hid : (o0.id == p.order_id) = true
    · rw [if_pos hid] at heq2
      refine Or.inr ⟨?_, hsig⟩
      rw [heq]
      have hid2 : o0.id = p.order_id := by simpa using hid
      have : o.id = p.order_id := by
        rw [← heq2]
        show o0.id = p.order_id
        exact hid2
      rw [this]
    · rw [if_neg (by simpa using hid)] at heq2
      rw [heq2] at ho0
      exact Or.inl ⟨o, ho0, rfl, hc⟩

/-- C4: on a successful verification the single handler step sets
payment.status = PAID, records the supplied gateway payment id, and sets
order.payment_status = PAID and order.status = CONFIRMED, all in one logical
update of the store; and this verify path is the only operation that makes an
order CONFIRMED — merge-cart never touches orders, and both create-order
handlers only ever create or keep CREATED orders. -/
theorem verify_reconcile_paid_confirmed_sole_path :
    (∀ secret req s p,
      optStrTruthy req.body.razorpay_order_id = true →
      optStrTruthy req.body.razorpay_payment_id = true →
      optStrTruthy req.body.razorpay_signature = true →
      singleMatch (s.payments.filter fun q =>
        q.razorpay_order_id == req.body.razorpay_order_id.getD "") = some p →
      (p.status == "PAID") = false →
      verifySignature (req.body.razorpay_order_id.getD "")
        (req.body.razorpay_payment_id.getD "")
        (req.body.razorpay_signature.getD "") secret = true →
      verifyPayment secret req s =
        (VerifyResp.ok p.order_id,
          updateOrderPaid
            (updatePaymentPaid s p.id (req.body.razorpay_payment_id.getD ""))
            p.order_id)) ∧
    (∀ env u gw s, confirmedInherited s (createOrder env u gw s).store) ∧
    (∀ env u gw s, confirmedInherited s (createOrderLegacy env u gw s).store) ∧
    (∀ u items s, (mergeItems u items s).2.orders = s.orders) ∧
    (∀ secret req s,
      ∀ o ∈ (verifyPayment secret req s).2.orders, o.status = "CONFIRMED" →
        (∃ o0 ∈ s.orders, o0.id = o.id ∧ o0.status = "CONFIRMED") ∨
        ((verifyPayment secret req s).1 = VerifyResp.ok o.id ∧
          verifySignature (req.body.razorpay_order_id.getD "")
            (req.body.razorpay_payment_id.getD "")
            (req.body.razorpay_signature.getD "") secret = true)) :=
  ⟨fun secret req s p h1 h2 h3 hp hnp hsig =>
      verifyPayment_success_eq secret req s p h1 h2 h3 hp hnp hsig,
    createOrder_confirmedInherited, createOrderLegacy_confirmedInherited,
    mergeItems_orders, verifyPayment_confirmed_path⟩

/-- Witness for C4: verifying the genuine signature against the pending
fixture reconciles payment 11 and order 10 in one step. -/
theorem verify_reconcile_paid_confirmed_sole_path_witness :
    verifyPayment "s3cret" { authHeader := none, body := verifyBodyOk }
        storePending =
      (VerifyResp.ok 10,
        updateOrderPaid (updatePaymentPaid storePending 11 "pay_1") 10) :=
  verify_reconcile_paid_confirmed_sole_path.1 "s3cret"
    { authHeader := none, body := verifyBodyOk } storePending paymentPending
    (by decide) (by decide) (by decide) (by decide) (by decide) (by decide)

end SupabaseBackend
